import Mathlib

/-!
Shallow embedding of the job-orchestration core of `ram-backend`
(`src/app/routes/scenarios--gen-results.js`): the POST/DELETE
`/projects/{projId}/scenarios/{scId}/generate` handlers, the
`generateResults` orchestrator, `spawnAnalysisProcess` and
`killAnalysisProcess`, together with the in-memory process registry.
The `Operation` helper class and `getProject` live outside the provided
sources and are modelled from the spec where noted.
-/

namespace RamBackend

/-- Status values of an operation record, per the spec's state machine
`not-started → running → {completed, error}`. -/
inductive OpStatus where
  | notStarted
  | running
  | completed
  | error
  deriving DecidableEq, Repr

/-- Errors surfaced by the JS code: the structured application errors
(`DataConflictError`, `ScenarioNotFoundError`), runtime `TypeError`s from
dereferencing `undefined`, and generic `Error` objects carrying a message. -/
inductive JsError where
  | dataConflict (msg : String)
  | scenarioNotFound
  | typeError (msg : String)
  | jsError (msg : String)
  deriving DecidableEq, Repr

/-- The `message` property of the thrown error object. -/
def errMessage : JsError → String
  | .dataConflict m => m
  | .scenarioNotFound => "Scenario not found"
  | .typeError m => m
  | .jsError m => m

/-- Prefix test on character lists. -/
def charsHavePrefix : List Char → List Char → Bool
  | _, [] => true
  | [], _ :: _ => false
  | c :: cs, d :: ds => c == d && charsHavePrefix cs ds

/-- Substring test on character lists. -/
def charsContain : List Char → List Char → Bool
  | [], pat => pat.isEmpty
  | c :: rest, pat => charsHavePrefix (c :: rest) pat || charsContain rest pat

/-- Boolean substring test, modelling JavaScript `str.match(/pat/)`
truthiness for a literal pattern. -/
def containsSubstr (s pat : String) : Bool :=
  charsContain s.toList pat.toList

/-- Observable side effects of the orchestration code: blob/record
deletion at admission, process-registry kills, container commands and
operation finalisation. -/
inductive Effect where
  | removeS3File (path : String)
  | deleteFileRecords (ids : List Nat)
  | deleteResults (projId scId : Nat)
  | startGenerate (projId scId : Nat)
  | killHandle (h : Nat)
  | execRemoveContainer (cmd : String)
  | spawnPull (cmd : String) (args : List String)
  | spawnRun (cmd : String) (args : List String)
  | opFinish (status : String) (data : String)
  deriving DecidableEq, Repr

/-- A value stored in the `scenarios_settings` table as the JS code sees
it: either a literal number (notably the literal `0` used for "unset"
timestamps) or a string. -/
inductive SVal where
  | num (n : Int)
  | str (s : String)
  deriving DecidableEq, Repr

instance : BEq SVal := ⟨fun a b => decide (a = b)⟩

/-- Timestamp coercion in `generateResults`:
`v === 0 ? v : (new Date(v)).getTime()`.  The parameter `dt` abstracts
`new Date(string).getTime()`; a numeric value is its own millisecond
timestamp (`new Date(n).getTime() = n`). -/
def coerceTs (dt : String → Int) (v : SVal) : Int :=
  if v == SVal.num 0 then 0
  else
    match v with
    | .num n => n
    | .str s => dt s

/-- The `needExport` decision of `generateResults` (lines 181–192): true
only when `rn_active_editing === 'true'` and the coerced `rn_updated_at`
timestamp is strictly greater than the coerced `res_gen_at` timestamp.
Parameter order matches the destructuring `[genAt, activeEditing,
rnUpdatedAt]`. -/
def needExportCalc (dt : String → Int) (genAt activeEditing rnUpdatedAt : SVal) : Bool :=
  if activeEditing == SVal.str "true" then
    decide (coerceTs dt rnUpdatedAt > coerceTs dt genAt)
  else false

/-- The three settings keys queried by `generateResults`. -/
def settingsKeys : List String := ["res_gen_at", "rn_active_editing", "rn_updated_at"]

/-- Lexicographic strict order on character lists. -/
def charListLt : List Char → List Char → Bool
  | [], [] => false
  | [], _ :: _ => true
  | _ :: _, [] => false
  | c :: cs, d :: ds => c < d || (c == d && charListLt cs ds)

/-- Lexicographic strict order on strings, as the database collation. -/
def strLt (a b : String) : Bool :=
  charListLt a.toList b.toList

/-- Insert a keyed row into a list sorted by key (ascending). -/
def insertSorted (kv : String × SVal) : List (String × SVal) → List (String × SVal)
  | [] => [kv]
  | x :: xs => if strLt x.1 kv.1 then x :: insertSorted kv xs else kv :: x :: xs

/-- Insertion sort by key, modelling the SQL `orderBy('key')`. -/
def sortByKey : List (String × SVal) → List (String × SVal)
  | [] => []
  | x :: xs => insertSorted x (sortByKey xs)

/-- The settings query of `generateResults` (lines 174–179): select the
values of the three keys, ordered by key, as a list of values. -/
def settingsValues (rows : List (String × SVal)) : List SVal :=
  (sortByKey (rows.filter (fun kv => settingsKeys.contains kv.1))).map Prod.snd

/-- The `needExport` decision computed from raw settings rows: the query
result is destructured positionally as `[genAt, activeEditing,
rnUpdatedAt]` (the keys' alphabetical order); `needExport` stays `false`
when the three rows are not all present. -/
def needExportOf (dt : String → Int) (rows : List (String × SVal)) : Bool :=
  match settingsValues rows with
  | [genAt, activeEditing, rnUpdatedAt] => needExportCalc dt genAt activeEditing rnUpdatedAt
  | _ => false

/-- A record of an operation, per the spec's data model: identity
`(type, projectId, scenarioId)` plus a status. -/
structure OperationRec where
  opType : String
  projId : Nat
  scId : Nat
  status : OpStatus
  deriving DecidableEq, Repr

/-- A `scenarios_files` row as used by the admission handler. -/
structure FileRec where
  id : Nat
  projId : Nat
  scId : Nat
  ftype : String
  path : String
  deriving DecidableEq, Repr

/-- The slice of persistent state the two route handlers read.
`ops` is ordered most-recent-first; `opLoadFault` injects an
infrastructure failure (for example a broken connection) into the
operation load. `projects` maps project id to its status string,
`scenarioRows` lists existing `(projId, scId)` scenarios, `adminAreas`
maps scenario id to the stored `admin_areas` value when the row exists. -/
structure Db where
  ops : List OperationRec
  opLoadFault : Option JsError
  projects : List (Nat × String)
  scenarioRows : List (Nat × Nat)
  adminAreas : List (Nat × String)
  resultFiles : List FileRec
  deriving Repr

/-- Modelled from the spec: `Operation.loadByData(type, projId, scId)`
(class `Operation` is not among the provided sources) loads the most
recent record for the identity and fails with a "does not exist" error
when none exists; an injected infrastructure fault surfaces as-is. -/
def loadByDataRes (db : Db) (t : String) (p s : Nat) : Except JsError OperationRec :=
  match db.opLoadFault with
  | some e => .error e
  | none =>
    match db.ops.find? (fun r => r.opType == t && r.projId == p && r.scId == s) with
    | some r => .ok r
    | none => .error (.jsError "Operation does not exist")

/-- Modelled from the spec: `Operation.isStarted()` is true iff the
loaded record's status is `running`; an operation that was never loaded
is not started. -/
def opIsStarted : Option OperationRec → Bool
  | some r => r.status == OpStatus.running
  | none => false

/-- Modelled from the spec: `Operation.isCompleted()` is true iff the
status is `completed` or `error`. -/
def opIsCompleted : OpStatus → Bool
  | .completed => true
  | .error => true
  | _ => false

/-- Modelled from the spec: `getProject(projId)` (module
`projects--get` is not among the provided sources) returns the project's
status or fails when the project does not exist. -/
def getProjectRes (db : Db) (p : Nat) : Except JsError String :=
  match db.projects.lookup p with
  | some st => .ok st
  | none => .jsError "Project not found" |> .error

/-- File kinds whose artifacts the admission handler deletes. -/
def resultsKinds : List String := ["results-csv", "results-json", "results-geojson"]

/-- The `scenarios_files` query of the POST handler (lines 74–78). -/
def queryResultFiles (db : Db) (p s : Nat) : List FileRec :=
  db.resultFiles.filter (fun f => f.scId == s && f.projId == p && resultsKinds.contains f.ftype)

/-- The POST handler body after the running-operation check (lines
48–99): project active, scenario exists, admin areas selected, then
delete stored results and kick off `generateResults`. A missing
`admin_areas` row makes `aaSetting.value` dereference `undefined`. -/
def postAfterOpCheck (db : Db) (p s : Nat) : Except JsError Unit × List Effect :=
  match getProjectRes db p with
  | .error e => (.error e, [])
  | .ok st =>
    if st = "active" then
      if (p, s) ∈ db.scenarioRows then
        match db.adminAreas.lookup s with
        | none => (.error (.typeError "Cannot read property value of undefined"), [])
        | some v =>
          if v = "[]" then (.error (.dataConflict "No admin areas selected"), [])
          else
            let files := queryResultFiles db p s
            (.ok (),
              files.map (fun f => Effect.removeS3File f.path) ++
                [Effect.deleteFileRecords (files.map FileRec.id),
                 Effect.deleteResults p s,
                 Effect.startGenerate p s])
      else (.error .scenarioNotFound, [])
    else (.error (.dataConflict "Project setup not completed"), [])

/-- The POST `/projects/{projId}/scenarios/{scId}/generate` handler
(lines 31–103): try to load the `generate-analysis` operation (absence
tolerated, other load errors rethrown), reject when it is started, then
run the admission body. -/
def postGenerateHandler (db : Db) (p s : Nat) : Except JsError Unit × List Effect :=
  match loadByDataRes db "generate-analysis" p s with
  | .error e =>
    if containsSubstr (errMessage e) "not exist" then postAfterOpCheck db p s
    else (.error e, [])
  | .ok rec =>
    if opIsStarted (some rec) then
      (.error (.dataConflict "Result generation already running"), [])
    else postAfterOpCheck db p s

/-- One entry of the in-memory `runningProcesses` map: the `updateRN`
and `genVT` slots hold the active stage handle (identified here by a
numeric handle id) or `null`. -/
structure RegEntry where
  updateRN : Option Nat
  genVT : Option Nat
  deriving DecidableEq, Repr

/-- The `runningProcesses` module-level map, keyed by the job key. -/
abbrev Registry : Type := List (String × RegEntry)

/-- The job key `identifier` string: `p{projId} s{scId}`. -/
def jobKey (p s : Nat) : String := s!"p{p} s{s}"

/-- Lookup of `runningProcesses[identifier]`; `none` models `undefined`. -/
def lookupEntry : Registry → String → Option RegEntry
  | [], _ => none
  | (k', e) :: rest, k => if k' = k then some e else lookupEntry rest k

/-- Assignment to an existing `runningProcesses[identifier]` entry. -/
def setEntry : Registry → String → RegEntry → Registry
  | [], _, _ => []
  | (k', e') :: rest, k, e =>
    if k' = k then (k, e) :: setEntry rest k e else (k', e') :: setEntry rest k e

/-- The `delete runningProcesses[identifier]` statement. -/
def removeEntry : Registry → String → Registry
  | [], _ => []
  | (k', e) :: rest, k =>
    if k' = k then removeEntry rest k else (k', e) :: removeEntry rest k

/-- Configuration slice used by `spawnAnalysisProcess` and
`killAnalysisProcess` (`config.analysisProcess` and `config.storage`). -/
structure AnalysisConfig where
  service : String
  container : String
  db : String
  storageHost : String
  storagePort : String
  hyperAccess : String
  hyperSecret : String
  hyperSize : Option String
  deriving DecidableEq, Repr

/-- The `config.storage` object. -/
structure StorageConfig where
  engine : String
  accessKey : String
  secretKey : String
  bucket : String
  region : String
  deriving DecidableEq, Repr

/-- The parts of `config` the analysis code reads. -/
structure Config where
  instanceId : String
  analysisProcess : AnalysisConfig
  storage : StorageConfig
  deriving DecidableEq, Repr

/-- The deterministic container name
`{instanceId}-analysisp{projId}s{scId}`. -/
def containerName (cfg : Config) (p s : Nat) : String :=
  cfg.instanceId ++ "-analysisp" ++ toString p ++ "s" ++ toString s

/-- The `killAnalysisProcess` function (lines 373–418), returning the
settled result of its promise, the side effects issued, and the updated
registry. Reading `.updateRN` off a missing registry entry throws a
`TypeError`, which rejects the promise. -/
def killAnalysisProcess (cfg : Config) (reg : Registry) (isTest : Bool) (p s : Nat) :
    Except JsError Unit × List Effect × Registry :=
  if isTest then (.ok (), [], reg)
  else
    let identifier := jobKey p s
    match lookupEntry reg identifier with
    | none => (.error (.typeError "Cannot read property updateRN of undefined"), [], reg)
    | some entry =>
      match entry.updateRN with
      | some h =>
        (.ok (), [Effect.killHandle h], setEntry reg identifier { entry with updateRN := none })
      | none =>
        match entry.genVT with
        | some h =>
          (.ok (), [Effect.killHandle h], setEntry reg identifier { entry with genVT := none })
        | none =>
          let service := cfg.analysisProcess.service
          if service = "hyper" ∨ service = "docker" then
            (.ok (), [Effect.execRemoveContainer (service ++ " rm -f " ++ containerName cfg p s)],
              reg)
          else
            (.error (.jsError (service ++ " is not a valid option. The analysis should be run on 'docker' or 'hyper'. Check your config file or env variables.")),
              [], reg)

/-- The DELETE `/projects/{projId}/scenarios/{scId}/generate` handler
(lines 116–145): load the operation (a "does not exist" load error maps
to `DataConflictError`, any other load error is swallowed leaving the
operation unloaded), reject when the operation is not started, otherwise
kill the generation process and finish the operation as aborted. -/
def deleteGenerateHandler (cfg : Config) (db : Db) (reg : Registry) (isTest : Bool) (p s : Nat) :
    Except JsError Unit × List Effect × Registry :=
  let loaded : Except JsError (Option OperationRec) :=
    match loadByDataRes db "generate-analysis" p s with
    | .error e =>
      if containsSubstr (errMessage e) "not exist" then
        .error (.dataConflict "Result generation not running")
      else .ok none
    | .ok rec => .ok (some rec)
  match loaded with
  | .error e => (.error e, [], reg)
  | .ok orec =>
    if opIsStarted orec then
      match killAnalysisProcess cfg reg isTest p s with
      | (.error e, effs, reg') => (.error e, effs, reg')
      | (.ok _, effs, reg') =>
        (.ok (), effs ++ [Effect.opFinish "error" "Operation aborted"], reg')
    else (.error (.dataConflict "Result generation not running"), [], reg)

/-- How a JS promise eventually settles. `pendingForever` models a
promise that never resolves nor rejects (its executor returned without
ever calling `resolve`/`reject`). -/
inductive Settle where
  | resolved
  | rejected (e : JsError)
  | pendingForever
  deriving DecidableEq, Repr

/-- The `error` variable observed by the `close` handler: the last
`stderr` data chunk, or `new Error(undefined).message = ""` when stderr
never emitted. -/
def capturedStderr (chunks : List String) : String :=
  (chunks.getLast?).getD ""

/-- The analysis process `close` handler (lines 355–365): delete the job
key's registry entry, then reject with the captured stderr on a nonzero
exit code, else resolve. -/
def analysisCloseHandler (reg : Registry) (p s : Nat) (chunks : List String) (code : Int) :
    Registry × Settle :=
  let reg' := removeEntry reg (jobKey p s)
  if code = 0 then (reg', Settle.resolved)
  else (reg', Settle.rejected (.jsError (capturedStderr chunks)))

/-- The fixed `-e` environment arguments plus `run`/`--name`/`--rm`
prefix built by `runProcess` (lines 301–317). -/
def baseRunArgs (cfg : Config) (p s opId : Nat) : List String :=
  let ap := cfg.analysisProcess
  let st := cfg.storage
  ["run", "--name", containerName cfg p s, "--rm",
   "-e", "DB_URI=" ++ ap.db,
   "-e", "PROJECT_ID=" ++ toString p,
   "-e", "SCENARIO_ID=" ++ toString s,
   "-e", "OPERATION_ID=" ++ toString opId,
   "-e", "STORAGE_HOST=" ++ ap.storageHost,
   "-e", "STORAGE_PORT=" ++ ap.storagePort,
   "-e", "STORAGE_ENGINE=" ++ st.engine,
   "-e", "STORAGE_ACCESS_KEY=" ++ st.accessKey,
   "-e", "STORAGE_SECRET_KEY=" ++ st.secretKey,
   "-e", "STORAGE_BUCKET=" ++ st.bucket,
   "-e", "STORAGE_REGION=" ++ st.region,
   "-e", "CONVERSION_DIR=/conversion"]

/-- The optional `--size` flag for the hyper backend (lines 330–334),
guarded by JS truthiness of `config.analysisProcess.hyperSize`. -/
def hyperSizeArgs (ap : AnalysisConfig) : List String :=
  match ap.hyperSize with
  | some sz => if sz ≠ "" then ["--size=" ++ sz] else []
  | none => []

/-- The per-service branch of `runProcess`'s `switch` (lines 319–338):
extra arguments and extra spawn environment, or `none` for an
unsupported service name. -/
def serviceExtras (cfg : Config) : Option (List String × List (String × String)) :=
  let ap := cfg.analysisProcess
  match ap.service with
  | "docker" => some (["--network", "ram"], [])
  | "hyper" =>
    some (hyperSizeArgs ap, [("HYPER_ACCESS", ap.hyperAccess), ("HYPER_SECRET", ap.hyperSecret)])
  | _ => none

/-- The complete spawn invocation of `runProcess`: command, argument
list (base arguments, service extras, then the image name last) and
extra environment; `none` when the service name is unsupported, in which
case no container-run spawn happens. -/
def runProcessSpawn (cfg : Config) (p s opId : Nat) :
    Option (String × List String × List (String × String)) :=
  match serviceExtras cfg with
  | none => none
  | some (extra, env) =>
    some (cfg.analysisProcess.service,
      baseRunArgs cfg p s opId ++ extra ++ [cfg.analysisProcess.container], env)

/-- The `spawnAnalysisProcess` function (lines 261–371): `pullImage`
always spawns `{service} pull {container}` and resolves regardless of
its exit code; `runProcess` then either spawns the container run and
settles via the close handler, or — for an unsupported service name —
creates a detached rejected promise (`return Promise.reject(...)` inside
the executor) so its own promise stays pending forever and no run spawn
happens. -/
def spawnAnalysisProcess (cfg : Config) (reg : Registry) (p s opId : Nat)
    (chunks : List String) (code : Int) : List Effect × Registry × Settle :=
  let ap := cfg.analysisProcess
  let pullEff := Effect.spawnPull ap.service ["pull", ap.container]
  match runProcessSpawn cfg p s opId with
  | none => ([pullEff], reg, Settle.pendingForever)
  | some (cmd, args, _env) =>
    let (reg', st) := analysisCloseHandler reg p s chunks code
    ([pullEff, Effect.spawnRun cmd args], reg', st)

/-- The `catch` block of `generateResults` (lines 207–214): a rejected
stage finishes the operation with status `error` and the error message
as data, unless the operation is already completed; a resolved or
forever-pending stage triggers no finish. -/
def handleStageSettle (st : OpStatus) : Settle → List Effect
  | .rejected e => if opIsCompleted st then [] else [Effect.opFinish "error" (errMessage e)]
  | _ => []

/-- Stage starts observable inside one `generateResults` run. -/
inductive StageEv where
  | closeDB
  | exportRN
  | genVT
  | analysis
  deriving DecidableEq, Repr

/-- Sequential composition of one awaited stage after the previous ones:
the stage starts (its event is appended) only when everything before it
resolved, and the accumulated result becomes this stage's result. -/
def stepStage (st : List StageEv × Except JsError Unit) (ev : StageEv)
    (res : Except JsError Unit) : List StageEv × Except JsError Unit :=
  match st.2 with
  | .error _ => st
  | .ok _ => (st.1 ++ [ev], res)

/-- The awaited body of `generateResults` (lines 194–204): when
`needExport` holds, close the local database, export the road network,
generate vector tiles, then always run the analysis container; each
`await` aborts the chain on rejection. -/
def runStageBody (ne : Bool) (closeRes exportRes tilesRes analysisRes : Except JsError Unit) :
    List StageEv × Except JsError Unit :=
  if ne then
    stepStage
      (stepStage
        (stepStage
          (stepStage ([], .ok ()) StageEv.closeDB closeRes)
          StageEv.exportRN exportRes)
        StageEv.genVT tilesRes)
      StageEv.analysis analysisRes
  else
    stepStage ([], .ok ()) StageEv.analysis analysisRes

/-- A concrete configuration whose service name is neither `docker` nor
`hyper`. -/
def podmanConfig : Config :=
  ⟨"ram", ⟨"podman", "ram-analysis", "postgres-uri", "storage-host", "9000", "ak", "sk", none⟩,
   ⟨"minio", "access", "secret", "bucket", "region"⟩⟩

/-- A concrete configuration using the docker backend. -/
def dockerConfig : Config :=
  ⟨"ram", ⟨"docker", "ram-analysis", "postgres-uri", "storage-host", "9000", "ak", "sk", none⟩,
   ⟨"minio", "access", "secret", "bucket", "region"⟩⟩

/-- An empty database: no operations, projects, scenarios or files. -/
def emptyDb : Db := ⟨[], none, [], [], [], []⟩

/- Helper lemmas about the registry map. -/

theorem lookupEntry_removeEntry (reg : Registry) (k : String) :
    lookupEntry (removeEntry reg k) k = none := by
  induction reg with
  | nil => rfl
  | cons kv t ih =>
    obtain ⟨k', e⟩ := kv
    by_cases h : k' = k
    · simpa [removeEntry, h] using ih
    · simpa [removeEntry, lookupEntry, h] using ih

theorem lookupEntry_setEntry (reg : Registry) (k : String) (e v : RegEntry)
    (hv : lookupEntry reg k = some v) :
    lookupEntry (setEntry reg k e) k = some e := by
  induction reg with
  | nil => simp [lookupEntry] at hv
  | cons kv t ih =>
    obtain ⟨k', e'⟩ := kv
    by_cases h : k' = k
    · simp [setEntry, lookupEntry, h]
    · simp [setEntry, lookupEntry, h] at hv ⊢
      exact ih hv

/-- C1: when a `generate-analysis` operation for `(projId, scId)` exists
with status `running`, the POST generate handler rejects with
`DataConflictError` and issues no side effects: no stored result
artifact is deleted and no job is started. -/
theorem post_generate_rejects_when_running (db : Db) (p s : Nat) (rec : OperationRec)
    (hload : loadByDataRes db "generate-analysis" p s = .ok rec)
    (hrun : rec.status = OpStatus.running) :
    postGenerateHandler db p s =
      (.error (.dataConflict "Result generation already running"), []) := by
  simp [postGenerateHandler, hload, opIsStarted, hrun]

/-- C1 witness: a concrete database holding a running `generate-analysis`
operation for project 1, scenario 2. -/
theorem post_generate_rejects_when_running_witness :
    loadByDataRes ⟨[⟨"generate-analysis", 1, 2, OpStatus.running⟩], none, [(1, "active")],
        [(1, 2)], [(2, "[1]")], []⟩ "generate-analysis" 1 2 =
      .ok ⟨"generate-analysis", 1, 2, OpStatus.running⟩ ∧
    postGenerateHandler ⟨[⟨"generate-analysis", 1, 2, OpStatus.running⟩], none, [(1, "active")],
        [(1, 2)], [(2, "[1]")], []⟩ 1 2 =
      (.error (.dataConflict "Result generation already running"), []) :=
  ⟨rfl,
    post_generate_rejects_when_running _ 1 2 ⟨"generate-analysis", 1, 2, OpStatus.running⟩ rfl rfl⟩

/-- C2 counterexample: with editing enabled, `res_gen_at` the literal 0
(unset) and `rn_updated_at` also the literal 0, `needExport` is `false`,
refuting "with editing enabled and res_gen_at unset (0), needExport is
true for any rn_updated_at value". -/
theorem needExport_unset_updatedAt_counterexample :
    needExportOf (fun _ => 0)
      [("res_gen_at", SVal.num 0), ("rn_active_editing", SVal.str "true"),
       ("rn_updated_at", SVal.num 0)] = false := by
  rfl

/-- C2 amended: `needExport` is true iff `rn_active_editing` equals the
string `true` and the coerced `rn_updated_at` timestamp strictly exceeds
the coerced `res_gen_at` timestamp; with `res_gen_at` the literal 0
(unset), `needExport` is true exactly when the coerced `rn_updated_at`
timestamp is strictly positive — not for every `rn_updated_at` value. -/
theorem needExport_characterization (dt : String → Int) (gv av rv : SVal) :
    needExportOf dt [("res_gen_at", gv), ("rn_active_editing", av), ("rn_updated_at", rv)] =
      ((av == SVal.str "true") && decide (coerceTs dt rv > coerceTs dt gv)) ∧
    needExportOf dt [("res_gen_at", SVal.num 0), ("rn_active_editing", av), ("rn_updated_at", rv)] =
      ((av == SVal.str "true") && decide (coerceTs dt rv > 0)) := by
  constructor
  · show needExportCalc dt gv av rv = _
    cases h : av == SVal.str "true" <;> simp [needExportCalc, h]
  · show needExportCalc dt (SVal.num 0) av rv = _
    have h0 : coerceTs dt (SVal.num 0) = 0 := rfl
    cases h : av == SVal.str "true" <;> simp [needExportCalc, h, h0]

/-- C3: at the failing input (configured service name `podman`, neither
`docker` nor `hyper`) `spawnAnalysisProcess` still attempts the image
pull spawn, performs no container-run spawn, and its promise stays
pending forever, so no settle value — and hence no operation-error
finish — ever reaches the orchestrator. -/
theorem spawn_invalid_service_pull_attempted :
    spawnAnalysisProcess podmanConfig [] 1 2 3 [] 0 =
      ([Effect.spawnPull "podman" ["pull", "ram-analysis"]], [], Settle.pendingForever) ∧
    runProcessSpawn podmanConfig 1 2 3 = none ∧
    handleStageSettle OpStatus.running Settle.pendingForever = [] :=
  ⟨rfl, rfl, rfl⟩

/-- C4: the analysis container close handler always removes the job
key's entry from the process registry; with a nonzero exit code it
rejects with the captured stderr text and the orchestrator's catch (the
operation still `running`) finishes the operation with status `error`
and that text as the error data; with exit code zero it resolves. -/
theorem analysis_close_contract (reg : Registry) (p s : Nat) (chunks : List String) (code : Int) :
    lookupEntry (analysisCloseHandler reg p s chunks code).1 (jobKey p s) = none ∧
    (analysisCloseHandler reg p s chunks code).2 =
      (if code = 0 then Settle.resolved
       else Settle.rejected (.jsError (capturedStderr chunks))) ∧
    handleStageSettle OpStatus.running (analysisCloseHandler reg p s chunks code).2 =
      (if code = 0 then [] else [Effect.opFinish "error" (capturedStderr chunks)]) := by
  by_cases hc : code = 0 <;>
    simp [analysisCloseHandler, hc, handleStageSettle, opIsCompleted, errMessage,
      lookupEntry_removeEntry]

/-- C5: whenever no `generate-analysis` operation for `(projId, scId)`
is currently running — the record is absent, the load fails for another
reason, or the record is not in `running` state — the DELETE generate
handler returns `DataConflictError`, issues no effects (in particular no
kill) and leaves the registry unchanged. -/
theorem delete_generate_not_running (cfg : Config) (db : Db) (reg : Registry) (isTest : Bool)
    (p s : Nat)
    (hnr : ∀ rec, loadByDataRes db "generate-analysis" p s = .ok rec →
      rec.status ≠ OpStatus.running) :
    deleteGenerateHandler cfg db reg isTest p s =
      (.error (.dataConflict "Result generation not running"), [], reg) := by
  unfold deleteGenerateHandler
  cases hl : loadByDataRes db "generate-analysis" p s with
  | error e =>
    by_cases hm : containsSubstr (errMessage e) "not exist" = true
    · simp [hm]
    · simp [hm, opIsStarted]
  | ok rec =>
    have hne := hnr rec hl
    simp [opIsStarted, hne]

/-- C5 witness: empty database, no operation record at all. -/
theorem delete_generate_not_running_witness :
    (∀ rec, loadByDataRes emptyDb "generate-analysis" 1 2 = .ok rec →
      rec.status ≠ OpStatus.running) ∧
    deleteGenerateHandler podmanConfig emptyDb [] false 1 2 =
      (.error (.dataConflict "Result generation not running"), [], []) :=
  ⟨fun rec h => by simp [loadByDataRes, emptyDb] at h,
   delete_generate_not_running podmanConfig emptyDb [] false 1 2
     (fun rec h => by simp [loadByDataRes, emptyDb] at h)⟩

/-- C6: when the registry entry for the job key has a non-null
`updateRN` handle, `killAnalysisProcess` resolves after killing exactly
that handle, nulls the `updateRN` slot while leaving `genVT` exactly as
it was, and issues no container removal command. -/
theorem kill_updateRN_stage (cfg : Config) (reg : Registry) (p s hid : Nat) (entry : RegEntry)
    (hreg : lookupEntry reg (jobKey p s) = some entry)
    (hrn : entry.updateRN = some hid) :
    killAnalysisProcess cfg reg false p s =
      (.ok (), [Effect.killHandle hid], setEntry reg (jobKey p s) ⟨none, entry.genVT⟩) ∧
    lookupEntry (setEntry reg (jobKey p s) ⟨none, entry.genVT⟩) (jobKey p s) =
      some ⟨none, entry.genVT⟩ := by
  constructor
  · simp [killAnalysisProcess, hreg, hrn]
  · exact lookupEntry_setEntry reg (jobKey p s) ⟨none, entry.genVT⟩ entry hreg

/-- C6 witness: registry entry with both an `updateRN` and a `genVT`
handle; only `updateRN`'s handle 7 is killed and `genVT` keeps 8. -/
theorem kill_updateRN_stage_witness :
    lookupEntry [(jobKey 1 2, (⟨some 7, some 8⟩ : RegEntry))] (jobKey 1 2) =
      some ⟨some 7, some 8⟩ ∧
    killAnalysisProcess podmanConfig [(jobKey 1 2, ⟨some 7, some 8⟩)] false 1 2 =
      (.ok (), [Effect.killHandle 7],
        setEntry [(jobKey 1 2, ⟨some 7, some 8⟩)] (jobKey 1 2) ⟨none, some 8⟩) :=
  ⟨rfl,
   (kill_updateRN_stage podmanConfig [(jobKey 1 2, ⟨some 7, some 8⟩)] 1 2 7
     ⟨some 7, some 8⟩ rfl rfl).1⟩

/-- C7: within one `generateResults` run the observed stage starts are
always a subsequence of close-database → export-road-network →
generate-vector-tiles → analysis (strict sequencing, never reordered);
with `needExport` false exactly the analysis stage runs; the analysis
stage starts iff every earlier stage resolved (so it is always reached
on the success path, and only then). -/
theorem generate_stage_sequencing (ne : Bool) (c e t a : Except JsError Unit) :
    ((runStageBody ne c e t a).1).Sublist
        [StageEv.closeDB, StageEv.exportRN, StageEv.genVT, StageEv.analysis] ∧
    (ne = false → runStageBody ne c e t a = ([StageEv.analysis], a)) ∧
    (StageEv.analysis ∈ (runStageBody ne c e t a).1 ↔
      (ne = true → c = .ok () ∧ e = .ok () ∧ t = .ok ())) ∧
    (c = .ok () → e = .ok () → t = .ok () →
      (runStageBody ne c e t a).1 =
        if ne then [StageEv.closeDB, StageEv.exportRN, StageEv.genVT, StageEv.analysis]
        else [StageEv.analysis]) := by
  rcases c with ec | ⟨⟩ <;> rcases e with ee | ⟨⟩ <;> rcases t with et | ⟨⟩ <;>
    cases ne <;> simp [runStageBody, stepStage]

/-- C7 witness: with export needed and every stage resolving, the trace
is exactly the four stages in order. -/
theorem generate_stage_sequencing_witness :
    (Except.ok () : Except JsError Unit) = .ok () ∧
    (runStageBody true (.ok ()) (.ok ()) (.ok ()) (.ok ())).1 =
      if true then [StageEv.closeDB, StageEv.exportRN, StageEv.genVT, StageEv.analysis]
      else [StageEv.analysis] :=
  ⟨rfl, (generate_stage_sequencing true (.ok ()) (.ok ()) (.ok ()) (.ok ())).2.2.2 rfl rfl rfl⟩

/-- C8: the container-run spawn contract. For the docker backend the
argument list is exactly `run`, the deterministic container name, `--rm`,
the twelve documented environment-variable pairs, `--network ram`, and
the image name last, with no extra spawn environment; for the hyper
backend the same twelve pairs, no network arguments, the optional
`--size` flag exactly when `hyperSize` is set (JS-truthy), the image name
last, and the `HYPER_ACCESS`/`HYPER_SECRET` credentials in the spawn
environment. -/
theorem run_args_contract (cfg : Config) (p s opId : Nat) :
    (cfg.analysisProcess.service = "docker" →
      runProcessSpawn cfg p s opId =
        some ("docker",
          ["run", "--name", containerName cfg p s, "--rm",
           "-e", "DB_URI=" ++ cfg.analysisProcess.db,
           "-e", "PROJECT_ID=" ++ toString p,
           "-e", "SCENARIO_ID=" ++ toString s,
           "-e", "OPERATION_ID=" ++ toString opId,
           "-e", "STORAGE_HOST=" ++ cfg.analysisProcess.storageHost,
           "-e", "STORAGE_PORT=" ++ cfg.analysisProcess.storagePort,
           "-e", "STORAGE_ENGINE=" ++ cfg.storage.engine,
           "-e", "STORAGE_ACCESS_KEY=" ++ cfg.storage.accessKey,
           "-e", "STORAGE_SECRET_KEY=" ++ cfg.storage.secretKey,
           "-e", "STORAGE_BUCKET=" ++ cfg.storage.bucket,
           "-e", "STORAGE_REGION=" ++ cfg.storage.region,
           "-e", "CONVERSION_DIR=/conversion",
           "--network", "ram",
           cfg.analysisProcess.container], [])) ∧
    (cfg.analysisProcess.service = "hyper" →
      runProcessSpawn cfg p s opId =
        some ("hyper",
          ["run", "--name", containerName cfg p s, "--rm",
           "-e", "DB_URI=" ++ cfg.analysisProcess.db,
           "-e", "PROJECT_ID=" ++ toString p,
           "-e", "SCENARIO_ID=" ++ toString s,
           "-e", "OPERATION_ID=" ++ toString opId,
           "-e", "STORAGE_HOST=" ++ cfg.analysisProcess.storageHost,
           "-e", "STORAGE_PORT=" ++ cfg.analysisProcess.storagePort,
           "-e", "STORAGE_ENGINE=" ++ cfg.storage.engine,
           "-e", "STORAGE_ACCESS_KEY=" ++ cfg.storage.accessKey,
           "-e", "STORAGE_SECRET_KEY=" ++ cfg.storage.secretKey,
           "-e", "STORAGE_BUCKET=" ++ cfg.storage.bucket,
           "-e", "STORAGE_REGION=" ++ cfg.storage.region,
           "-e", "CONVERSION_DIR=/conversion"]
            ++ hyperSizeArgs cfg.analysisProcess ++ [cfg.analysisProcess.container],
          [("HYPER_ACCESS", cfg.analysisProcess.hyperAccess),
           ("HYPER_SECRET", cfg.analysisProcess.hyperSecret)])) ∧
    (∀ sz, cfg.analysisProcess.hyperSize = some sz → sz ≠ "" →
      hyperSizeArgs cfg.analysisProcess = ["--size=" ++ sz]) ∧
    (cfg.analysisProcess.hyperSize = none → hyperSizeArgs cfg.analysisProcess = []) := by
  refine ⟨fun hd => ?_, fun hh => ?_, fun sz hsz hne => ?_, fun hn => ?_⟩
  · simp [runProcessSpawn, serviceExtras, baseRunArgs, hd]
  · simp [runProcessSpawn, serviceExtras, baseRunArgs, hh]
  · simp [hyperSizeArgs, hsz, hne]
  · simp [hyperSizeArgs, hn]

/-- C8 witness: the docker case evaluated at the concrete configuration. -/
theorem run_args_contract_witness :
    dockerConfig.analysisProcess.service = "docker" ∧
    runProcessSpawn dockerConfig 1 2 3 =
      some ("docker",
        ["run", "--name", containerName dockerConfig 1 2, "--rm",
         "-e", "DB_URI=" ++ dockerConfig.analysisProcess.db,
         "-e", "PROJECT_ID=" ++ toString 1,
         "-e", "SCENARIO_ID=" ++ toString 2,
         "-e", "OPERATION_ID=" ++ toString 3,
         "-e", "STORAGE_HOST=" ++ dockerConfig.analysisProcess.storageHost,
         "-e", "STORAGE_PORT=" ++ dockerConfig.analysisProcess.storagePort,
         "-e", "STORAGE_ENGINE=" ++ dockerConfig.storage.engine,
         "-e", "STORAGE_ACCESS_KEY=" ++ dockerConfig.storage.accessKey,
         "-e", "STORAGE_SECRET_KEY=" ++ dockerConfig.storage.secretKey,
         "-e", "STORAGE_BUCKET=" ++ dockerConfig.storage.bucket,
         "-e", "STORAGE_REGION=" ++ dockerConfig.storage.region,
         "-e", "CONVERSION_DIR=/conversion",
         "--network", "ram",
         dockerConfig.analysisProcess.container], []) :=
  ⟨rfl, (run_args_contract dockerConfig 1 2 3).1 rfl⟩

/-- C9: when the operation check passes, the project is active and the
scenario exists, but the scenario has no `admin_areas` settings row at
all, the POST generate handler fails with a `TypeError` (dereferencing
`undefined`) rather than the `DataConflictError` used for an empty
selection, and issues no effects. -/
theorem post_generate_missing_admin_areas (db : Db) (p s : Nat)
    (hok : ∀ rec, loadByDataRes db "generate-analysis" p s = .ok rec →
      rec.status ≠ OpStatus.running)
    (hfault : ∀ e, loadByDataRes db "generate-analysis" p s = .error e →
      containsSubstr (errMessage e) "not exist" = true)
    (hproj : getProjectRes db p = .ok "active")
    (hsc : (p, s) ∈ db.scenarioRows)
    (haa : db.adminAreas.lookup s = none) :
    postGenerateHandler db p s =
      (.error (.typeError "Cannot read property value of undefined"), []) := by
  have hbody : postAfterOpCheck db p s =
      (.error (.typeError "Cannot read property value of undefined"), []) := by
    simp [postAfterOpCheck, hproj, hsc, haa]
  unfold postGenerateHandler
  cases hl : loadByDataRes db "generate-analysis" p s with
  | error e => simp [hfault e hl, hbody]
  | ok rec =>
    have hne := hok rec hl
    simp [opIsStarted, hne, hbody]

/-- C9 witness: scenario 2 of active project 1 exists but has no
`admin_areas` row. -/
theorem post_generate_missing_admin_areas_witness :
    (⟨[], none, [(1, "active")], [(1, 2)], [], []⟩ : Db).adminAreas.lookup 2 = none ∧
    postGenerateHandler ⟨[], none, [(1, "active")], [(1, 2)], [], []⟩ 1 2 =
      (.error (.typeError "Cannot read property value of undefined"), []) :=
  ⟨rfl,
   post_generate_missing_admin_areas ⟨[], none, [(1, "active")], [(1, 2)], [], []⟩ 1 2
     (fun rec h => by simp [loadByDataRes] at h)
     (fun e h => by
       simp [loadByDataRes] at h
       subst h
       rfl)
     rfl (by simp) rfl⟩

/-- C10: when the job key has no registry entry, `killAnalysisProcess`
(outside test mode) rejects with a `TypeError` from dereferencing the
missing entry, issues no effects — in particular no forced container
removal — and, through the DELETE handler with the operation still
running, the abort request fails with that internal error instead of
completing. -/
theorem kill_missing_entry_rejects (cfg : Config) (db : Db) (reg : Registry) (p s : Nat)
    (rec : OperationRec)
    (hreg : lookupEntry reg (jobKey p s) = none)
    (hload : loadByDataRes db "generate-analysis" p s = .ok rec)
    (hrun : rec.status = OpStatus.running) :
    killAnalysisProcess cfg reg false p s =
      (.error (.typeError "Cannot read property updateRN of undefined"), [], reg) ∧
    deleteGenerateHandler cfg db reg false p s =
      (.error (.typeError "Cannot read property updateRN of undefined"), [], reg) := by
  have hk : killAnalysisProcess cfg reg false p s =
      (.error (.typeError "Cannot read property updateRN of undefined"), [], reg) := by
    simp [killAnalysisProcess, hreg]
  refine ⟨hk, ?_⟩
  unfold deleteGenerateHandler
  simp [hload, opIsStarted, hrun, hk]

/-- C10 witness: empty registry, running operation for project 1,
scenario 2. -/
theorem kill_missing_entry_rejects_witness :
    lookupEntry [] (jobKey 1 2) = none ∧
    deleteGenerateHandler podmanConfig
        ⟨[⟨"generate-analysis", 1, 2, OpStatus.running⟩], none, [], [], [], []⟩ [] false 1 2 =
      (.error (.typeError "Cannot read property updateRN of undefined"), [], []) :=
  ⟨rfl,
   (kill_missing_entry_rejects podmanConfig
     ⟨[⟨"generate-analysis", 1, 2, OpStatus.running⟩], none, [], [], [], []⟩ [] 1 2
     ⟨"generate-analysis", 1, 2, OpStatus.running⟩ rfl rfl rfl).2⟩

end RamBackend
